import Mathlib

/-!
Shallow embedding of the cart-discount service (`main.go`) of the
superfiliate tech challenge repository.

Prices are modelled as exact rationals (`ℚ`).  Go's rounding primitive
`parseFloat` (`fmt.Sprintf("%.2f", x)` followed by `strconv.ParseFloat`)
is modelled as exact decimal rounding to 2 fractional digits, half away
from zero; the binary-float artifacts of `%.2f` (ties-to-even on the
binary value) have no exact-arithmetic counterpart and are outside this
embedding.  Errors produced with `errors.New` are modelled as `Except`
values carrying the exact error strings of the source.
-/

/-- `Configuration` struct (main.go:19-24): the promotion rule. -/
structure Configuration where
  prerequisiteSkus : List String
  eligibleSkus : List String
  discountUnit : String
  discountValue : ℚ
deriving Repr, DecidableEq

/-- `LineItem` struct (main.go:32-37).  `discountedPrice` defaults to 0,
the Go zero value it has before `CalculateTotalWithDiscount` sets it. -/
structure LineItem where
  name : String
  price : ℚ
  sku : String
  discountedPrice : ℚ := 0
deriving Repr, DecidableEq

/-- `Cart` struct (main.go:26-30). -/
structure Cart where
  reference : String
  lineItems : List LineItem
  total : ℚ := 0
deriving Repr, DecidableEq

/-- `Cashier` struct (main.go:39-41): holds the configuration. -/
structure Cashier where
  config : Configuration
deriving Repr, DecidableEq

/-- `NewCashier` (main.go:47-51). -/
def NewCashier (config : Configuration) : Cashier :=
  { config := config }

/-- The compiled-in `config` value (main.go:12-17). -/
def config : Configuration :=
  { prerequisiteSkus := ["PEANUT-BUTTER", "COCOA", "FRUITY"]
    eligibleSkus := ["BANANA-CAKE", "COCOA", "CHOCOLATE"]
    discountUnit := "percentage"
    discountValue := 50 }

deriving instance DecidableEq for Except

/-- Decimal rounding to 2 fractional digits, half away from zero: the
exact-arithmetic model of formatting with `%.2f` and re-parsing. -/
def round2 (q : ℚ) : ℚ :=
  if q < 0 then -(((Rat.floor (-q * 100 + 1 / 2) : ℤ) : ℚ) / 100)
  else ((Rat.floor (q * 100 + 1 / 2) : ℤ) : ℚ) / 100

/-- `Rat.floor` agrees with the `Int.floor` of the `FloorRing ℚ` instance. -/
lemma rat_floor_eq_int_floor (q : ℚ) : Rat.floor q = Int.floor q := rfl

/-- `round2` expressed through `Int.floor`, for proofs. -/
lemma round2_def (q : ℚ) : round2 q =
    if q < 0 then -((Int.floor (-q * 100 + 1 / 2) : ℚ) / 100)
    else (Int.floor (q * 100 + 1 / 2) : ℚ) / 100 := by
  simp [round2, rat_floor_eq_int_floor]

/-- `parseFloat` (main.go:97-105), modelled as `round2`.  The Go source
formats `amount` with `%.2f` and re-parses; the parse of a freshly
formatted number never fails, so the defensive branch that returns `-1`
instead of an error is unreachable and the function is total. -/
def Cashier.parseFloat (_c : Cashier) (amount : ℚ) : ℚ :=
  round2 amount

/-- `hasPrerequisiteSku` (main.go:124-138): the Go map-based set
membership scan over the items, with early return, is a `List.any`. -/
def Cashier.hasPrerequisiteSku (c : Cashier) (items : List LineItem) : Bool :=
  items.any fun item => c.config.prerequisiteSkus.contains item.sku

/-- `getEligibleForDiscount` (main.go:107-122): filter the items whose
SKU is in the eligible set, preserving order and duplicates. -/
def Cashier.getEligibleForDiscount (c : Cashier) (items : List LineItem) : List LineItem :=
  items.filter fun item => c.config.eligibleSkus.contains item.sku

/-- The loop body of `getCheapestProduct` (main.go:147-151): replace the
running candidate only on a strictly lower price. -/
def cheaperStep (cheapest item : LineItem) : LineItem :=
  if cheapest.price > item.price then item else cheapest

/-- `getCheapestProduct` (main.go:140-154): error on an empty list,
otherwise fold the strict-decrease step over the whole list starting
from the first element (the Go loop ranges over all items, the first
iteration comparing `items[0]` with itself). -/
def Cashier.getCheapestProduct (_c : Cashier) (items : List LineItem) :
    Except String LineItem :=
  match items with
  | [] => Except.error "empty list of products"
  | x :: xs => Except.ok ((x :: xs).foldl cheaperStep x)

/-- `calculateDiscount` (main.go:156-163): percentage is the only
recognized unit. -/
def Cashier.calculateDiscount (c : Cashier) (amount : ℚ) : Except String ℚ :=
  if c.config.discountUnit = "percentage" then
    Except.ok (amount * c.config.discountValue / 100)
  else
    Except.error "unsupported discount method"

/-- The final loop of `CalculateTotalWithDiscount` (main.go:80-94),
factored out: set each item's `discountedPrice` to the rounded
`price - itemDiscount` (the discount applying exactly when the item's
SKU equals `discountedSKU`), and the total to the rounded sum of the
rounded discounted prices (the Go running accumulation over `ℚ` equals
the list sum). -/
def Cashier.applyDiscountLoop (c : Cashier) (cart : Cart)
    (discountedSKU : String) (discountValue : ℚ) : Cart :=
  let discountedItems := cart.lineItems.map fun item =>
    { item with discountedPrice :=
        c.parseFloat (item.price - (if item.sku = discountedSKU then discountValue else 0)) }
  { reference := cart.reference
    lineItems := discountedItems
    total := c.parseFloat ((discountedItems.map fun item => item.discountedPrice).sum) }

/-- `CalculateTotalWithDiscount` (main.go:53-95). -/
def Cashier.CalculateTotalWithDiscount (c : Cashier) (cart : Cart) :
    Except String Cart :=
  let discountedItems := cart.lineItems
  let eligibleItems :=
    if c.hasPrerequisiteSku discountedItems then c.getEligibleForDiscount discountedItems
    else []
  if 0 < eligibleItems.length then
    match c.getCheapestProduct eligibleItems with
    | Except.error e => Except.error e
    | Except.ok cheapest =>
      match c.calculateDiscount cheapest.price with
      | Except.error e => Except.error e
      | Except.ok discountAmount =>
        Except.ok (c.applyDiscountLoop cart cheapest.sku discountAmount)
  else
    Except.ok (c.applyDiscountLoop cart "" 0)

/-- The default test cart of `main_test.go` (Scenario A of the spec). -/
def cart : Cart :=
  { reference := "2d832fe0-6c96-4515-9be7-4c00983539c1"
    lineItems :=
      [ { name := "Peanut Butter", price := 39, sku := "PEANUT-BUTTER" }
      , { name := "Fruity", price := 34.99, sku := "FRUITY" }
      , { name := "Chocolate", price := 32, sku := "CHOCOLATE" } ] }

/-- `cart_multiple_eligible` of `main_test.go` (Scenario B of the spec). -/
def cart_multiple_eligible : Cart :=
  { reference := "2d832fe0-6c96-4515-9be7-4c00983539c1"
    lineItems :=
      [ { name := "Peanut Butter", price := 39, sku := "PEANUT-BUTTER" }
      , { name := "Cocoa", price := 35, sku := "COCOA" }
      , { name := "Chocolate", price := 32, sku := "CHOCOLATE" }
      , { name := "Banana Cake", price := 36, sku := "BANANA-CAKE" } ] }

/-- `cart_not_eligible` of `main_test.go` (Scenario C of the spec). -/
def cart_not_eligible : Cart :=
  { reference := "2d832fe0-6c96-4515-9be7-4c00983539c1"
    lineItems :=
      [ { name := "Banana Cake", price := 36, sku := "BANANA-CAKE" }
      , { name := "Chocolate", price := 32, sku := "CHOCOLATE" } ] }

/-- Evaluation rule for `round2` on nonnegative inputs, with the floor
pinned by explicit bounds. -/
lemma round2_eq (q : ℚ) (n : ℤ) (h0 : 0 ≤ q) (h1 : (n : ℚ) ≤ q * 100 + 1 / 2)
    (h2 : q * 100 + 1 / 2 < (n : ℚ) + 1) : round2 q = (n : ℚ) / 100 := by
  rw [round2_def, if_neg (not_lt.mpr h0)]
  have hfl : Int.floor (q * 100 + 1 / 2) = n := by
    rw [Int.floor_eq_iff]
    exact ⟨h1, h2⟩
  rw [hfl]

lemma round2_lit_39 : round2 39 = 39 :=
  (round2_eq 39 3900 (by norm_num) (by norm_num) (by norm_num)).trans (by norm_num)

lemma round2_lit_34_99 : round2 (3499 / 100) = 3499 / 100 :=
  (round2_eq (3499 / 100) 3499 (by norm_num) (by norm_num) (by norm_num)).trans (by norm_num)

lemma round2_lit_16 : round2 16 = 16 :=
  (round2_eq 16 1600 (by norm_num) (by norm_num) (by norm_num)).trans (by norm_num)

lemma round2_lit_89_99 : round2 (8999 / 100) = 8999 / 100 :=
  (round2_eq (8999 / 100) 8999 (by norm_num) (by norm_num) (by norm_num)).trans (by norm_num)

lemma round2_lit_35 : round2 35 = 35 :=
  (round2_eq 35 3500 (by norm_num) (by norm_num) (by norm_num)).trans (by norm_num)

lemma round2_lit_36 : round2 36 = 36 :=
  (round2_eq 36 3600 (by norm_num) (by norm_num) (by norm_num)).trans (by norm_num)

lemma round2_lit_32 : round2 32 = 32 :=
  (round2_eq 32 3200 (by norm_num) (by norm_num) (by norm_num)).trans (by norm_num)

lemma round2_lit_126 : round2 126 = 126 :=
  (round2_eq 126 12600 (by norm_num) (by norm_num) (by norm_num)).trans (by norm_num)

lemma round2_lit_68 : round2 68 = 68 :=
  (round2_eq 68 6800 (by norm_num) (by norm_num) (by norm_num)).trans (by norm_num)

lemma round2_lit_tiny : round2 (3 / 500) = 1 / 100 :=
  (round2_eq (3 / 500) 1 (by norm_num) (by norm_num) (by norm_num)).trans (by norm_num)

lemma round2_lit_cent : round2 (1 / 100) = 1 / 100 :=
  (round2_eq (1 / 100) 1 (by norm_num) (by norm_num) (by norm_num)).trans (by norm_num)

/-- `hasPrerequisiteSku` is true exactly when some item's SKU is in the
prerequisite SKU set. -/
lemma hasPrerequisiteSku_iff (c : Cashier) (items : List LineItem) :
    c.hasPrerequisiteSku items = true ↔
      ∃ li ∈ items, li.sku ∈ c.config.prerequisiteSkus := by
  simp [Cashier.hasPrerequisiteSku, List.any_eq_true]

/-- The eligible subsequence is empty exactly when no item's SKU is in
the eligible SKU set. -/
lemma getEligibleForDiscount_eq_nil_iff (c : Cashier) (items : List LineItem) :
    c.getEligibleForDiscount items = [] ↔
      ∀ li ∈ items, li.sku ∉ c.config.eligibleSkus := by
  simp [Cashier.getEligibleForDiscount, List.filter_eq_nil_iff]

/-- Eligible items are items of the cart. -/
lemma mem_of_mem_getEligibleForDiscount (c : Cashier) {items : List LineItem}
    {li : LineItem} (h : li ∈ c.getEligibleForDiscount items) : li ∈ items :=
  (List.mem_filter.mp h).1

/-- Case analysis of `CalculateTotalWithDiscount`: on an empty eligible
subsequence the loop runs with no discount; otherwise the cheapest fold
drives the discount, guarded by the discount-unit check. -/
lemma compute_eq (c : Cashier) (cart : Cart) :
    c.CalculateTotalWithDiscount cart =
      match (if c.hasPrerequisiteSku cart.lineItems then
          c.getEligibleForDiscount cart.lineItems else []) with
      | [] => Except.ok (c.applyDiscountLoop cart "" 0)
      | x :: xs =>
          if c.config.discountUnit = "percentage" then
            Except.ok (c.applyDiscountLoop cart ((x :: xs).foldl cheaperStep x).sku
              (((x :: xs).foldl cheaperStep x).price * c.config.discountValue / 100))
          else Except.error "unsupported discount method" := by
  unfold Cashier.CalculateTotalWithDiscount
  rcases h : (if c.hasPrerequisiteSku cart.lineItems then
      c.getEligibleForDiscount cart.lineItems else []) with _ | ⟨x, xs⟩
  · simp [h]
  · by_cases hu : c.config.discountUnit = "percentage" <;>
      simp [h, Cashier.getCheapestProduct, Cashier.calculateDiscount, hu]

/-- The discount loop, with the rounding distributed over the SKU test. -/
lemma applyDiscountLoop_eq (c : Cashier) (cart : Cart) (s : String) (a : ℚ) :
    c.applyDiscountLoop cart s a =
      { reference := cart.reference
        lineItems := cart.lineItems.map fun li =>
          { li with discountedPrice :=
              if li.sku = s then round2 (li.price - a) else round2 li.price }
        total := round2 ((cart.lineItems.map fun li =>
          if li.sku = s then round2 (li.price - a) else round2 li.price).sum) } := by
  have hfun : (fun (li : LineItem) =>
      { li with discountedPrice := round2 (li.price - if li.sku = s then a else 0) })
      = fun (li : LineItem) =>
      { li with discountedPrice :=
          if li.sku = s then round2 (li.price - a) else round2 li.price } := by
    funext li
    by_cases hs : li.sku = s <;> simp [hs]
  simp only [Cashier.applyDiscountLoop, Cashier.parseFloat, hfun, List.map_map]
  rfl

/-- The discount loop with a zero discount value rounds every price. -/
lemma applyDiscountLoop_zero (c : Cashier) (cart : Cart) (s : String) :
    c.applyDiscountLoop cart s 0 =
      { reference := cart.reference
        lineItems := cart.lineItems.map fun li =>
          { li with discountedPrice := round2 li.price }
        total := round2 ((cart.lineItems.map fun li => round2 li.price).sum) } := by
  rw [applyDiscountLoop_eq]
  have h1 : (fun (li : LineItem) =>
      { li with discountedPrice :=
          if li.sku = s then round2 (li.price - 0) else round2 li.price })
      = fun (li : LineItem) => { li with discountedPrice := round2 li.price } := by
    funext li; by_cases hs : li.sku = s <;> simp [hs]
  have h2 : (fun (li : LineItem) =>
      if li.sku = s then round2 (li.price - 0) else round2 li.price)
      = fun (li : LineItem) => round2 li.price := by
    funext li; by_cases hs : li.sku = s <;> simp [hs]
  rw [h1, h2]

example : (Cashier.CalculateTotalWithDiscount (NewCashier config) cart).map Cart.total
    = Except.ok 89.99 := by
  norm_num +decide [Except.map, Cashier.CalculateTotalWithDiscount, Cashier.hasPrerequisiteSku,
    Cashier.getEligibleForDiscount, Cashier.getCheapestProduct, Cashier.calculateDiscount,
    Cashier.applyDiscountLoop, Cashier.parseFloat, cheaperStep, NewCashier, config, cart,
    List.filter_cons, List.filter_nil, List.foldl_cons, List.foldl_nil,
    round2_lit_39, round2_lit_34_99, round2_lit_16, round2_lit_89_99]

example : (Cashier.CalculateTotalWithDiscount (NewCashier config) cart_multiple_eligible).map Cart.total
    = Except.ok 126 := by
  norm_num +decide [Except.map, Cashier.CalculateTotalWithDiscount, Cashier.hasPrerequisiteSku,
    Cashier.getEligibleForDiscount, Cashier.getCheapestProduct, Cashier.calculateDiscount,
    Cashier.applyDiscountLoop, Cashier.parseFloat, cheaperStep, NewCashier, config,
    cart_multiple_eligible,
    List.filter_cons, List.filter_nil, List.foldl_cons, List.foldl_nil,
    round2_lit_39, round2_lit_35, round2_lit_16, round2_lit_36, round2_lit_126]

example : (Cashier.CalculateTotalWithDiscount (NewCashier config) cart_not_eligible).map Cart.total
    = Except.ok 68 := by
  norm_num +decide [Except.map, Cashier.CalculateTotalWithDiscount, Cashier.hasPrerequisiteSku,
    Cashier.getEligibleForDiscount, Cashier.getCheapestProduct, Cashier.calculateDiscount,
    Cashier.applyDiscountLoop, Cashier.parseFloat, cheaperStep, NewCashier, config,
    cart_not_eligible, List.filter_cons, List.filter_nil,
    round2_lit_36, round2_lit_32, round2_lit_68]

/-- The strict-decrease fold lands on the accumulator or on a list element. -/
lemma foldl_cheaperStep_mem (acc : LineItem) (l : List LineItem) :
    l.foldl cheaperStep acc = acc ∨ l.foldl cheaperStep acc ∈ l := by
  induction l generalizing acc with
  | nil => exact Or.inl rfl
  | cons y t ih =>
    rw [List.foldl_cons]
    by_cases hy : acc.price > y.price
    · have hstep : cheaperStep acc y = y := if_pos hy
      rw [hstep]
      rcases ih y with h | h
      · right
        rw [h]
        exact List.mem_cons_self y t
      · exact Or.inr (List.mem_cons_of_mem y h)
    · have hstep : cheaperStep acc y = acc := if_neg hy
      rw [hstep]
      rcases ih acc with h | h
      · exact Or.inl h
      · exact Or.inr (List.mem_cons_of_mem y h)

/-- Full characterisation of the strict-decrease fold: either the
accumulator is already minimal (and is returned), or the fold returns
the first list element strictly below the accumulator price that is
minimal, every earlier element being strictly more expensive. -/
lemma foldl_cheaperStep_spec (acc : LineItem) (l : List LineItem) :
    (l.foldl cheaperStep acc = acc ∧ ∀ y ∈ l, acc.price ≤ y.price) ∨
    (∃ i, ∃ hi : i < l.length, l.get ⟨i, hi⟩ = l.foldl cheaperStep acc ∧
      (l.foldl cheaperStep acc).price < acc.price ∧
      (∀ j, ∀ hj : j < l.length, j < i →
        (l.foldl cheaperStep acc).price < (l.get ⟨j, hj⟩).price) ∧
      ∀ y ∈ l, (l.foldl cheaperStep acc).price ≤ y.price) := by
  induction l generalizing acc with
  | nil => exact Or.inl ⟨rfl, by simp⟩
  | cons y t ih =>
    rw [List.foldl_cons]
    by_cases hy : acc.price > y.price
    · have hstep : cheaperStep acc y = y := if_pos hy
      rw [hstep]
      rcases ih y with ⟨heq, hall⟩ | ⟨i, hi, hget, hlt, hfirst, hall⟩
      · refine Or.inr ⟨0, by simp, by simpa using heq.symm, by rw [heq]; exact hy, ?_, ?_⟩
        · intro j hj hj0
          exact absurd hj0 (Nat.not_lt_zero j)
        · intro z hz
          rw [heq]
          rcases List.mem_cons.mp hz with rfl | hz
          · exact le_refl _
          · exact hall z hz
      · refine Or.inr ⟨i + 1, by simpa using Nat.succ_lt_succ hi, by simpa using hget,
          hlt.trans hy, ?_, ?_⟩
        · intro j hj hji
          cases j with
          | zero => simpa using hlt
          | succ k =>
            have hk : k < t.length := by simpa using hj
            have : k < i := Nat.lt_of_succ_lt_succ hji
            simpa using hfirst k hk this
        · intro z hz
          rcases List.mem_cons.mp hz with rfl | hz
          · exact le_of_lt hlt
          · exact hall z hz
    · have hstep : cheaperStep acc y = acc := if_neg hy
      rw [hstep]
      rcases ih acc with ⟨heq, hall⟩ | ⟨i, hi, hget, hlt, hfirst, hall⟩
      · refine Or.inl ⟨heq, ?_⟩
        intro z hz
        rcases List.mem_cons.mp hz with rfl | hz
        · exact not_lt.mp hy
        · exact hall z hz
      · refine Or.inr ⟨i + 1, by simpa using Nat.succ_lt_succ hi, by simpa using hget,
          hlt, ?_, ?_⟩
        · intro j hj hji
          cases j with
          | zero => simpa using lt_of_lt_of_le hlt (not_lt.mp hy)
          | succ k =>
            have hk : k < t.length := by simpa using hj
            have : k < i := Nat.lt_of_succ_lt_succ hji
            simpa using hfirst k hk this
        · intro z hz
          rcases List.mem_cons.mp hz with rfl | hz
          · exact le_of_lt (lt_of_lt_of_le hlt (not_lt.mp hy))
          · exact hall z hz

/-- Inversion of a successful `getCheapestProduct`. -/
lemma getCheapestProduct_ok (c : Cashier) {items : List LineItem} {ch : LineItem}
    (h : c.getCheapestProduct items = Except.ok ch) :
    ∃ x xs, items = x :: xs ∧ (x :: xs).foldl cheaperStep x = ch := by
  cases items with
  | nil => simp [Cashier.getCheapestProduct] at h
  | cons x xs => exact ⟨x, xs, rfl, by simpa [Cashier.getCheapestProduct] using h⟩

/-- A successfully selected cheapest item is one of the candidates. -/
lemma getCheapestProduct_mem (c : Cashier) {items : List LineItem} {ch : LineItem}
    (h : c.getCheapestProduct items = Except.ok ch) : ch ∈ items := by
  obtain ⟨x, xs, rfl, hfold⟩ := getCheapestProduct_ok c h
  rcases foldl_cheaperStep_mem x (x :: xs) with h' | h'
  · rw [← hfold, h']
    exact List.mem_cons_self x xs
  · exact hfold ▸ h'

/-- Evaluation rule for `round2` on negative inputs. -/
lemma round2_neg_eq (q : ℚ) (n : ℤ) (h0 : q < 0) (h1 : (n : ℚ) ≤ -q * 100 + 1 / 2)
    (h2 : -q * 100 + 1 / 2 < (n : ℚ) + 1) : round2 q = -((n : ℚ) / 100) := by
  rw [round2_def, if_pos h0]
  have hfl : Int.floor (-q * 100 + 1 / 2) = n := by
    rw [Int.floor_eq_iff]
    exact ⟨h1, h2⟩
  rw [hfl]

/-- Multiples of one cent are fixed points of `round2`. -/
lemma round2_int_div (m : ℤ) : round2 ((m : ℚ) / 100) = (m : ℚ) / 100 := by
  have h100 : ((m : ℚ) / 100) * 100 = (m : ℚ) := by
    field_simp
  rcases le_or_lt 0 m with hm | hm
  · have hm' : (0 : ℚ) ≤ (m : ℚ) := by exact_mod_cast hm
    refine round2_eq _ m (by positivity) ?_ ?_ <;> rw [h100] <;> linarith
  · have hm' : ((m : ℚ) : ℚ) < 0 := by exact_mod_cast hm
    have h0 : (m : ℚ) / 100 < 0 := by
      apply div_neg_of_neg_of_pos hm' (by norm_num)
    have hneg : -((m : ℚ) / 100) * 100 = ((-m : ℤ) : ℚ) := by
      push_cast
      field_simp
    have := round2_neg_eq ((m : ℚ) / 100) (-m) h0 (by rw [hneg]; push_cast; linarith)
      (by rw [hneg]; push_cast; linarith)
    rw [this]
    push_cast
    ring

/-- Every `round2` output is a multiple of one cent. -/
lemma round2_form (q : ℚ) : ∃ m : ℤ, round2 q = (m : ℚ) / 100 := by
  rw [round2_def]
  split
  · exact ⟨-Int.floor (-q * 100 + 1 / 2), by push_cast; ring⟩
  · exact ⟨Int.floor (q * 100 + 1 / 2), rfl⟩

/-- `round2` is idempotent. -/
lemma round2_idem (q : ℚ) : round2 (round2 q) = round2 q := by
  obtain ⟨m, hm⟩ := round2_form q
  rw [hm, round2_int_div]

/-- `round2` never exceeds a cent-multiple upper bound of its input. -/
lemma round2_le_div (x : ℚ) (k : ℕ) (h : x ≤ (k : ℚ) / 100) :
    round2 x ≤ (k : ℚ) / 100 := by
  rcases lt_or_le x 0 with hx | hx
  · rw [round2_def, if_pos hx]
    have hfl : (0 : ℤ) ≤ Int.floor (-x * 100 + 1 / 2) := by
      apply Int.floor_nonneg.mpr
      nlinarith
    have hc : (0 : ℚ) ≤ (Int.floor (-x * 100 + 1 / 2) : ℚ) := by exact_mod_cast hfl
    have : -((Int.floor (-x * 100 + 1 / 2) : ℚ) / 100) ≤ 0 := by
      apply neg_nonpos_of_nonneg
      positivity
    exact this.trans (by positivity)
  · rw [round2_def, if_neg (not_lt.mpr hx)]
    have hx100 : x * 100 ≤ (k : ℚ) := by
      rw [← le_div_iff₀ (by norm_num : (0 : ℚ) < 100)]
      exact h
    have hfl : Int.floor (x * 100 + 1 / 2) ≤ (k : ℤ) := by
      have hlt : x * 100 + 1 / 2 < ((k : ℤ) : ℚ) + 1 := by push_cast; linarith
      have := Int.floor_lt.mpr (by push_cast; linarith : x * 100 + 1 / 2 < (((k : ℤ) + 1 : ℤ) : ℚ))
      omega
    have hc : (Int.floor (x * 100 + 1 / 2) : ℚ) ≤ (k : ℚ) := by exact_mod_cast hfl
    linarith

/-- Membership in a list zipped with its own image. -/
lemma mem_zip_map {l : List LineItem} {f : LineItem → LineItem} {p : LineItem × LineItem}
    (h : p ∈ l.zip (l.map f)) : p.1 ∈ l ∧ p.2 = f p.1 := by
  induction l with
  | nil => simp at h
  | cons x t ih =>
    rw [List.map_cons, List.zip_cons_cons] at h
    rcases List.mem_cons.mp h with rfl | h
    · exact ⟨List.mem_cons_self x t, rfl⟩
    · obtain ⟨h1, h2⟩ := ih h
      exact ⟨List.mem_cons_of_mem x h1, h2⟩

/-- Shape of every successful computation: the output is the discount
loop applied with a discount value that is either zero or the percentage
amount of some eligible item. -/
lemma compute_ok_shape (c : Cashier) (cart : Cart) (out : Cart)
    (h : c.CalculateTotalWithDiscount cart = Except.ok out) :
    ∃ s a, out = c.applyDiscountLoop cart s a ∧
      (a = 0 ∨ ∃ ch ∈ c.getEligibleForDiscount cart.lineItems,
        a = ch.price * c.config.discountValue / 100) := by
  rw [compute_eq] at h
  rcases he : (if c.hasPrerequisiteSku cart.lineItems then
      c.getEligibleForDiscount cart.lineItems else []) with _ | ⟨x, xs⟩
  · rw [he] at h
    simp only [Except.ok.injEq] at h
    exact ⟨"", 0, h.symm, Or.inl rfl⟩
  · rw [he] at h
    by_cases hu : c.config.discountUnit = "percentage"
    · simp only [hu, if_true, Except.ok.injEq] at h
      refine ⟨_, _, h.symm, Or.inr ?_⟩
      have hmem : (x :: xs).foldl cheaperStep x ∈ x :: xs := by
        rcases foldl_cheaperStep_mem x (x :: xs) with h' | h'
        · rw [h']
          exact List.mem_cons_self x xs
        · exact h'
      by_cases hpre : c.hasPrerequisiteSku cart.lineItems
      · rw [if_pos hpre] at he
        exact ⟨_, he ▸ hmem, rfl⟩
      · rw [if_neg hpre] at he
        exact absurd he.symm (List.cons_ne_nil x xs)
    · simp [hu] at h

/-- Computation when the eligible subsequence is empty. -/
lemma compute_eq_nil (c : Cashier) (cart : Cart)
    (h : (if c.hasPrerequisiteSku cart.lineItems then
        c.getEligibleForDiscount cart.lineItems else []) = []) :
    c.CalculateTotalWithDiscount cart = Except.ok (c.applyDiscountLoop cart "" 0) := by
  rw [compute_eq, h]

/-- Computation when the eligible subsequence is nonempty. -/
lemma compute_eq_cons (c : Cashier) (cart : Cart) (x : LineItem) (xs : List LineItem)
    (h : (if c.hasPrerequisiteSku cart.lineItems then
        c.getEligibleForDiscount cart.lineItems else []) = x :: xs) :
    c.CalculateTotalWithDiscount cart =
      if c.config.discountUnit = "percentage" then
        Except.ok (c.applyDiscountLoop cart ((x :: xs).foldl cheaperStep x).sku
          (((x :: xs).foldl cheaperStep x).price * c.config.discountValue / 100))
      else Except.error "unsupported discount method" := by
  rw [compute_eq, h]

/-- Items all of whose SKUs avoid the prerequisite set do not activate
the promotion. -/
lemma hasPrerequisiteSku_eq_false (c : Cashier) (items : List LineItem)
    (h : ∀ li ∈ items, li.sku ∉ c.config.prerequisiteSkus) :
    c.hasPrerequisiteSku items = false := by
  cases hb : c.hasPrerequisiteSku items with
  | false => rfl
  | true =>
    obtain ⟨li, hli, hmem⟩ := (hasPrerequisiteSku_iff c items).mp hb
    exact absurd hmem (h li hli)

/-- The configuration with an unrecognized discount unit, used to
exercise the `calculateDiscount` failure branch. -/
def config_fixed : Configuration :=
  { config with discountUnit := "fixed" }

/-- A cart holding a single item priced below one cent (0.006). -/
def cart_subcent : Cart :=
  { reference := "tiny"
    lineItems := [ { name := "Tiny Chocolate", price := 3 / 500, sku := "CHOCOLATE" } ] }

/-- The output of the Cashier on the default test cart. -/
def cartA_out : Cart :=
  { reference := "2d832fe0-6c96-4515-9be7-4c00983539c1"
    lineItems :=
      [ { name := "Peanut Butter", price := 39, sku := "PEANUT-BUTTER", discountedPrice := 39 }
      , { name := "Fruity", price := 34.99, sku := "FRUITY", discountedPrice := 34.99 }
      , { name := "Chocolate", price := 32, sku := "CHOCOLATE", discountedPrice := 16 } ]
    total := 89.99 }

/-- A candidate list with a price tie between its second and third items. -/
def tie_items : List LineItem :=
  [ { name := "A", price := 5, sku := "SKU-A" }
  , { name := "B", price := 3, sku := "SKU-B" }
  , { name := "C", price := 3, sku := "SKU-C" } ]

/-- C1: for every cart containing a prerequisite-SKU item and an
eligible-SKU item, under the percentage unit, the computation succeeds
and discounts exactly the line items whose SKU equals the selected
cheapest eligible item's SKU (all of them, by SKU value), each receiving
the rounded `price - cheapest.price * discount_value / 100`, while every
other item receives its rounded price. -/
theorem C1_discount_exactly_cheapest_sku (c : Cashier) (cart : Cart)
    (hunit : c.config.discountUnit = "percentage")
    (hpre : ∃ li ∈ cart.lineItems, li.sku ∈ c.config.prerequisiteSkus)
    (helig : ∃ li ∈ cart.lineItems, li.sku ∈ c.config.eligibleSkus) :
    ∃ cheapest,
      c.getCheapestProduct (c.getEligibleForDiscount cart.lineItems) = Except.ok cheapest ∧
      c.CalculateTotalWithDiscount cart =
        Except.ok
          { reference := cart.reference
            lineItems := cart.lineItems.map fun li =>
              { li with discountedPrice :=
                  if li.sku = cheapest.sku then
                    round2 (li.price - cheapest.price * c.config.discountValue / 100)
                  else round2 li.price }
            total := round2 ((cart.lineItems.map fun li =>
              if li.sku = cheapest.sku then
                round2 (li.price - cheapest.price * c.config.discountValue / 100)
              else round2 li.price).sum) } := by
  have hpre' : c.hasPrerequisiteSku cart.lineItems = true :=
    (hasPrerequisiteSku_iff c cart.lineItems).mpr hpre
  have hne : c.getEligibleForDiscount cart.lineItems ≠ [] := fun hnil => by
    obtain ⟨li, hli, hmem⟩ := helig
    exact (getEligibleForDiscount_eq_nil_iff c cart.lineItems).mp hnil li hli hmem
  obtain ⟨x, xs, hxs⟩ := List.exists_cons_of_ne_nil hne
  refine ⟨(x :: xs).foldl cheaperStep x, ?_, ?_⟩
  · rw [hxs]
    rfl
  · rw [compute_eq_cons c cart x xs (by simp [hpre', hxs]), if_pos hunit,
      applyDiscountLoop_eq]

/-- C2: the total of every successfully computed cart is the rounded sum
of its line items' discounted prices, each of which is itself already
rounded to two fractional digits. -/
theorem C2_total_is_rounded_sum (c : Cashier) (cart out : Cart)
    (h : c.CalculateTotalWithDiscount cart = Except.ok out) :
    out.total = round2 ((out.lineItems.map fun li => li.discountedPrice).sum) ∧
    ∀ li ∈ out.lineItems, round2 li.discountedPrice = li.discountedPrice := by
  obtain ⟨s, a, rfl, -⟩ := compute_ok_shape c cart out h
  constructor
  · rfl
  · intro li hli
    have hli' : li ∈ cart.lineItems.map fun item =>
        { item with discountedPrice :=
            (round2 (item.price - if item.sku = s then a else 0)) } := by
      simpa [Cashier.applyDiscountLoop, Cashier.parseFloat] using hli
    obtain ⟨x, hx, rfl⟩ := List.mem_map.mp hli'
    exact round2_idem _

/-- C3: cheapest-item selection on a nonempty candidate list succeeds
and returns an item of minimal price that occurs in the list at a
position strictly before every other position, in the sense that all
earlier candidates are strictly more expensive (first-occurrence
tie-break). -/
theorem C3_cheapest_first_occurrence (c : Cashier) (items : List LineItem)
    (hne : items ≠ []) :
    ∃ ch, c.getCheapestProduct items = Except.ok ch ∧
      ∃ i, ∃ hi : i < items.length, items.get ⟨i, hi⟩ = ch ∧
        (∀ y ∈ items, ch.price ≤ y.price) ∧
        ∀ j, ∀ hj : j < items.length, j < i → ch.price < (items.get ⟨j, hj⟩).price := by
  cases items with
  | nil => exact absurd rfl hne
  | cons x xs =>
    refine ⟨(x :: xs).foldl cheaperStep x, rfl, ?_⟩
    rcases foldl_cheaperStep_spec x (x :: xs) with ⟨heq, hall⟩ | ⟨i, hi, hget, hlt, hfirst, hall⟩
    · refine ⟨0, by simp, by simpa using heq.symm, ?_, ?_⟩
      · intro y hy
        rw [heq]
        exact hall y hy
      · intro j hj hj0
        exact absurd hj0 (Nat.not_lt_zero j)
    · exact ⟨i, hi, hget, hall, fun j hj hji => hfirst j hj hji⟩

/-- C4: the promotion is active exactly when some item's SKU is in the
prerequisite set, and a cart with no prerequisite-SKU item succeeds with
no item discounted: every discounted price is the rounded input price
and the total is the rounded sum of the rounded input prices. -/
theorem C4_no_prerequisite_no_discount (c : Cashier) (cart : Cart) :
    (c.hasPrerequisiteSku cart.lineItems = true ↔
      ∃ li ∈ cart.lineItems, li.sku ∈ c.config.prerequisiteSkus) ∧
    ((∀ li ∈ cart.lineItems, li.sku ∉ c.config.prerequisiteSkus) →
      c.CalculateTotalWithDiscount cart =
        Except.ok
          { reference := cart.reference
            lineItems := cart.lineItems.map fun li =>
              { li with discountedPrice := round2 li.price }
            total := round2 ((cart.lineItems.map fun li => round2 li.price).sum) }) := by
  refine ⟨hasPrerequisiteSku_iff c cart.lineItems, fun hnone => ?_⟩
  have hpre : c.hasPrerequisiteSku cart.lineItems = false :=
    hasPrerequisiteSku_eq_false c cart.lineItems hnone
  rw [compute_eq_nil c cart (by simp [hpre]), applyDiscountLoop_zero]

/-- C5 (counterexample): a cart whose single item is priced 0.006 is
computed successfully, yet the item's discounted price 0.01 exceeds its
input price, refuting `discounted_price ≤ price` as stated. -/
theorem C5_discounted_price_le_price_counterexample :
    Cashier.CalculateTotalWithDiscount (NewCashier config) cart_subcent =
      Except.ok
        { reference := "tiny"
          lineItems :=
            [ { name := "Tiny Chocolate", price := 3 / 500, sku := "CHOCOLATE", discountedPrice := 1 / 100 } ]
          total := 1 / 100 } ∧
    ¬ ((1 : ℚ) / 100 ≤ 3 / 500) := by
  constructor
  · norm_num +decide [Cashier.CalculateTotalWithDiscount, Cashier.hasPrerequisiteSku,
      Cashier.getEligibleForDiscount, Cashier.getCheapestProduct, Cashier.calculateDiscount,
      Cashier.applyDiscountLoop, Cashier.parseFloat, cheaperStep, NewCashier, config,
      cart_subcent, List.filter_cons, List.filter_nil, round2_lit_tiny, round2_lit_cent]
  · norm_num

/-- C5 (amended): for carts all of whose prices are whole numbers of
cents and a nonnegative configured discount value, every successfully
computed line item's discounted price is at most its input price. -/
theorem C5_discounted_price_le_price_amended (c : Cashier) (cart out : Cart)
    (hdv : 0 ≤ c.config.discountValue)
    (hprices : ∀ li ∈ cart.lineItems, ∃ k : ℕ, li.price = (k : ℚ) / 100)
    (h : c.CalculateTotalWithDiscount cart = Except.ok out) :
    ∀ p ∈ cart.lineItems.zip out.lineItems, p.2.discountedPrice ≤ p.1.price := by
  obtain ⟨s, a, rfl, ha⟩ := compute_ok_shape c cart out h
  have ha0 : 0 ≤ a := by
    rcases ha with rfl | ⟨ch, hch, rfl⟩
    · exact le_refl 0
    · obtain ⟨k, hk⟩ := hprices ch (mem_of_mem_getEligibleForDiscount c hch)
      have hp0 : 0 ≤ ch.price := by
        rw [hk]
        positivity
      exact div_nonneg (mul_nonneg hp0 hdv) (by norm_num)
  intro p hp
  rw [applyDiscountLoop_eq] at hp
  obtain ⟨hp1, hp2⟩ := mem_zip_map hp
  obtain ⟨k, hk⟩ := hprices p.1 hp1
  rw [hp2]
  show (if p.1.sku = s then round2 (p.1.price - a) else round2 p.1.price) ≤ p.1.price
  by_cases hs : p.1.sku = s
  · rw [if_pos hs, hk]
    exact round2_le_div _ k (by linarith)
  · rw [if_neg hs, hk]
    exact round2_le_div _ k (le_refl _)

/-- C8 (counterexample): with an unrecognized discount unit but a cart
containing no prerequisite SKU, the computation succeeds, refuting the
unconditional claim that a non-percentage unit makes it fail. -/
theorem C8_unsupported_unit_counterexample :
    config_fixed.discountUnit ≠ "percentage" ∧
    Cashier.CalculateTotalWithDiscount (NewCashier config_fixed) cart_not_eligible =
      Except.ok
        { reference := "2d832fe0-6c96-4515-9be7-4c00983539c1"
          lineItems :=
            [ { name := "Banana Cake", price := 36, sku := "BANANA-CAKE", discountedPrice := 36 }
            , { name := "Chocolate", price := 32, sku := "CHOCOLATE", discountedPrice := 32 } ]
          total := 68 } := by
  constructor
  · decide
  · norm_num +decide [Cashier.CalculateTotalWithDiscount, Cashier.hasPrerequisiteSku,
      Cashier.getEligibleForDiscount, Cashier.getCheapestProduct, Cashier.calculateDiscount,
      Cashier.applyDiscountLoop, Cashier.parseFloat, cheaperStep, NewCashier, config_fixed,
      config, cart_not_eligible, List.filter_cons, List.filter_nil,
      round2_lit_36, round2_lit_32, round2_lit_68]

/-- C8 (amended): with an unrecognized discount unit, whenever the cart
activates the promotion and contains at least one eligible-SKU item, the
computation fails with the unsupported-discount-unit error. -/
theorem C8_unsupported_unit_fails_when_active (c : Cashier) (cart : Cart)
    (hunit : c.config.discountUnit ≠ "percentage")
    (hpre : ∃ li ∈ cart.lineItems, li.sku ∈ c.config.prerequisiteSkus)
    (helig : ∃ li ∈ cart.lineItems, li.sku ∈ c.config.eligibleSkus) :
    c.CalculateTotalWithDiscount cart = Except.error "unsupported discount method" := by
  have hpre' : c.hasPrerequisiteSku cart.lineItems = true :=
    (hasPrerequisiteSku_iff c cart.lineItems).mpr hpre
  have hne : c.getEligibleForDiscount cart.lineItems ≠ [] := fun hnil => by
    obtain ⟨li, hli, hmem⟩ := helig
    exact (getEligibleForDiscount_eq_nil_iff c cart.lineItems).mp hnil li hli hmem
  obtain ⟨x, xs, hxs⟩ := List.exists_cons_of_ne_nil hne
  rw [compute_eq_cons c cart x xs (by simp [hpre', hxs]), if_neg hunit]

/-- C9: cheapest-item selection on the empty candidate list fails with
the empty-list error, and that error never escapes the computation: the
only error the computation can return is the unsupported-unit error. -/
theorem C9_empty_selection_error_and_unreachable :
    (∀ c : Cashier, c.getCheapestProduct [] = Except.error "empty list of products") ∧
    ∀ (c : Cashier) (cart : Cart) (e : String),
      c.CalculateTotalWithDiscount cart = Except.error e →
        e = "unsupported discount method" := by
  refine ⟨fun c => rfl, fun c cart e h => ?_⟩
  rcases he : (if c.hasPrerequisiteSku cart.lineItems then
      c.getEligibleForDiscount cart.lineItems else []) with _ | ⟨x, xs⟩
  · rw [compute_eq_nil c cart he] at h
    exact absurd h (by simp)
  · rw [compute_eq_cons c cart x xs he] at h
    by_cases hu : c.config.discountUnit = "percentage"
    · rw [if_pos hu] at h
      exact absurd h (by simp)
    · rw [if_neg hu] at h
      simpa using h.symm

/-- C10: a cart with no prerequisite-SKU item, or no eligible-SKU item,
is computed successfully whatever the configured discount unit: the
discount-unit check is never reached. -/
theorem C10_inactive_or_no_eligible_succeeds (c : Cashier) (cart : Cart)
    (h : (∀ li ∈ cart.lineItems, li.sku ∉ c.config.prerequisiteSkus) ∨
      (∀ li ∈ cart.lineItems, li.sku ∉ c.config.eligibleSkus)) :
    (c.CalculateTotalWithDiscount cart).isOk = true := by
  have hnil : (if c.hasPrerequisiteSku cart.lineItems then
      c.getEligibleForDiscount cart.lineItems else []) = [] := by
    rcases h with h | h
    · rw [hasPrerequisiteSku_eq_false c cart.lineItems h]
      simp
    · by_cases hpre : c.hasPrerequisiteSku cart.lineItems
      · rw [if_pos hpre]
        exact (getEligibleForDiscount_eq_nil_iff c cart.lineItems).mpr h
      · rw [if_neg hpre]
  rw [compute_eq_nil c cart hnil]
  rfl

/-- C1 witness: Scenario A, where Chocolate (32.00) is the only eligible
item and every CHOCOLATE item is discounted by 16.00. -/
theorem C1_discount_exactly_cheapest_sku_witness :
    ∃ cheapest,
      Cashier.getCheapestProduct (NewCashier config)
        (Cashier.getEligibleForDiscount (NewCashier config) cart.lineItems) =
          Except.ok cheapest ∧
      Cashier.CalculateTotalWithDiscount (NewCashier config) cart =
        Except.ok
          { reference := cart.reference
            lineItems := cart.lineItems.map fun li =>
              { li with discountedPrice :=
                  if li.sku = cheapest.sku then
                    (round2 (li.price - cheapest.price * (NewCashier config).config.discountValue / 100))
                  else round2 li.price }
            total := round2 ((cart.lineItems.map fun li =>
              if li.sku = cheapest.sku then
                round2 (li.price - cheapest.price * (NewCashier config).config.discountValue / 100)
              else round2 li.price).sum) } :=
  C1_discount_exactly_cheapest_sku (NewCashier config) cart rfl (by decide) (by decide)

/-- C2 witness: the Scenario A output has total 89.99, the rounded sum
of its already-rounded discounted prices. -/
theorem C2_total_is_rounded_sum_witness :
    cartA_out.total = round2 ((cartA_out.lineItems.map fun li => li.discountedPrice).sum) ∧
    ∀ li ∈ cartA_out.lineItems, round2 li.discountedPrice = li.discountedPrice :=
  C2_total_is_rounded_sum (NewCashier config) cart cartA_out (by
    norm_num +decide [Cashier.CalculateTotalWithDiscount, Cashier.hasPrerequisiteSku,
      Cashier.getEligibleForDiscount, Cashier.getCheapestProduct, Cashier.calculateDiscount,
      Cashier.applyDiscountLoop, Cashier.parseFloat, cheaperStep, NewCashier, config, cart,
      cartA_out, List.filter_cons, List.filter_nil, List.foldl_cons, List.foldl_nil,
      round2_lit_39, round2_lit_34_99, round2_lit_16, round2_lit_89_99])

/-- C3 witness: on a list with a price tie (5, 3, 3) selection succeeds
with a first-occurrence minimal item. -/
theorem C3_cheapest_first_occurrence_witness :
    ∃ ch, Cashier.getCheapestProduct (NewCashier config) tie_items = Except.ok ch ∧
      ∃ i, ∃ hi : i < tie_items.length, tie_items.get ⟨i, hi⟩ = ch ∧
        (∀ y ∈ tie_items, ch.price ≤ y.price) ∧
        ∀ j, ∀ hj : j < tie_items.length, j < i → ch.price < (tie_items.get ⟨j, hj⟩).price :=
  C3_cheapest_first_occurrence (NewCashier config) tie_items (by simp [tie_items])

/-- C4 witness: Scenario C, a cart with no prerequisite SKU, succeeds
with no discount. -/
theorem C4_no_prerequisite_no_discount_witness :
    Cashier.CalculateTotalWithDiscount (NewCashier config) cart_not_eligible =
      Except.ok
        { reference := cart_not_eligible.reference
          lineItems := cart_not_eligible.lineItems.map fun li =>
            { li with discountedPrice := round2 li.price }
          total := round2 ((cart_not_eligible.lineItems.map fun li => round2 li.price).sum) } :=
  (C4_no_prerequisite_no_discount (NewCashier config) cart_not_eligible).2 (by decide)

/-- C5 witness: on Scenario A, whose prices are whole cents, the
discounted Chocolate output price 16.00 is at most its input price
32.00. -/
theorem C5_discounted_price_le_price_witness :
    (({ name := "Chocolate", price := 32, sku := "CHOCOLATE", discountedPrice := 16 } : LineItem)).discountedPrice ≤
      (({ name := "Chocolate", price := 32, sku := "CHOCOLATE", discountedPrice := 0 } : LineItem)).price :=
  C5_discounted_price_le_price_amended (NewCashier config) cart cartA_out
    (by norm_num [NewCashier, config])
    (by
      intro li hli
      simp only [cart, List.mem_cons, List.not_mem_nil, or_false] at hli
      rcases hli with rfl | rfl | rfl
      · exact ⟨3900, by norm_num⟩
      · exact ⟨3499, by norm_num⟩
      · exact ⟨3200, by norm_num⟩)
    (by
      norm_num +decide [Cashier.CalculateTotalWithDiscount, Cashier.hasPrerequisiteSku,
        Cashier.getEligibleForDiscount, Cashier.getCheapestProduct, Cashier.calculateDiscount,
        Cashier.applyDiscountLoop, Cashier.parseFloat, cheaperStep, NewCashier, config, cart,
        cartA_out, List.filter_cons, List.filter_nil, List.foldl_cons, List.foldl_nil,
        round2_lit_39, round2_lit_34_99, round2_lit_16, round2_lit_89_99])
    ({ name := "Chocolate", price := 32, sku := "CHOCOLATE", discountedPrice := 0 },
     { name := "Chocolate", price := 32, sku := "CHOCOLATE", discountedPrice := 16 })
    (by simp [cart, cartA_out])

/-- C8 witness: with the "fixed" unit and Scenario A (prerequisite and
eligible items present), the computation fails with the
unsupported-unit error. -/
theorem C8_unsupported_unit_fails_when_active_witness :
    Cashier.CalculateTotalWithDiscount (NewCashier config_fixed) cart =
      Except.error "unsupported discount method" :=
  C8_unsupported_unit_fails_when_active (NewCashier config_fixed) cart
    (by decide) (by decide) (by decide)

/-- C9 witness: the empty-list error on an empty candidate list, and
the only-unsupported-unit-error fact applied to a failing concrete run. -/
theorem C9_empty_selection_error_and_unreachable_witness :
    Cashier.getCheapestProduct (NewCashier config) [] =
      Except.error "empty list of products" ∧
    "unsupported discount method" = "unsupported discount method" :=
  ⟨C9_empty_selection_error_and_unreachable.1 (NewCashier config),
   C9_empty_selection_error_and_unreachable.2 (NewCashier config_fixed) cart
     "unsupported discount method"
     (by
       norm_num +decide [Cashier.CalculateTotalWithDiscount, Cashier.hasPrerequisiteSku,
         Cashier.getEligibleForDiscount, Cashier.getCheapestProduct,
         Cashier.calculateDiscount, cheaperStep, NewCashier, config_fixed, config, cart,
         List.filter_cons, List.filter_nil, List.foldl_cons, List.foldl_nil])⟩

/-- C10 witness: with the "fixed" unit but no prerequisite SKU in the
cart, the computation still succeeds. -/
theorem C10_inactive_or_no_eligible_succeeds_witness :
    (Cashier.CalculateTotalWithDiscount (NewCashier config_fixed) cart_not_eligible).isOk
      = true :=
  C10_inactive_or_no_eligible_succeeds (NewCashier config_fixed) cart_not_eligible
    (Or.inl (by decide))
